import Mathlib

/- Verification development for the gdriveprotect vault subsystem.

The definitions below are a shallow embedding of the vault code in
src/routes/vault_manager.py (class VaultManager and the auto-migration
route) and src/routes/dlp_scanner.py (scan_batch).

Modelling conventions:
* A Python str is modelled as a list of Unicode code points (List Nat,
  each < 0x110000); a Python bytes value as a list of byte values
  (List Nat, each < 256).  str.encode('utf-8') / bytes.decode('utf-8')
  are modelled by an executable UTF-8 codec.
* Randomness (secrets.token_bytes) is modelled by passing the drawn
  bytes explicitly as a FipsRandom record.
* The AES-256-GCM cipher, PBKDF2 key derivation and the Cloud KMS
  service are external dependencies (the cryptography library and
  Google Cloud), not code of this repository.  They are modelled by
  executable functions that keep the interface contract the code
  relies on: encryption is a keystream XOR (so that decryption with
  the same key, and only with the same key stream, inverts it) and the
  authentication tag is a deterministic function of key, IV and
  ciphertext (so that tag verification succeeds exactly when the tag
  matches the recomputation).
* Python exceptions are modelled with Except and the VError enum;
  Flask-level jsonify error responses are identified with the error
  value that produced them. -/

namespace GDriveProtect

/-- Python string concatenation on the Lean String model. -/
def strAppend (s t : String) : String := ⟨s.data ++ t.data⟩

/-- Python str.startswith. -/
def strStartsWith (s pre : String) : Bool := pre.data.isPrefixOf s.data

/-- Python str.endswith. -/
def strEndsWith (s suf : String) : Bool := suf.data.isSuffixOf s.data

/-- Python slicing s[n:] on a str (used for stripping address tags). -/
def strDrop (s : String) (n : Nat) : String := ⟨s.data.drop n⟩

/-- True when the character with code 47, '/', occurs in the string
(used to model drive_path.split('/', 1) succeeding in unpacking). -/
def strHasSlash (s : String) : Bool := s.data.contains '/'

/-- UTF-8 encoding of one Unicode code point (Python str.encode('utf-8'),
one character). -/
def utf8EncodeChar (c : Nat) : List Nat :=
  if c < 128 then [c]
  else if c < 2048 then [192 + c / 64, 128 + c % 64]
  else if c < 65536 then [224 + c / 4096, 128 + c / 64 % 64, 128 + c % 64]
  else [240 + c / 262144, 128 + c / 4096 % 64, 128 + c / 64 % 64, 128 + c % 64]

/-- UTF-8 encoding of a str (Python str.encode('utf-8')). -/
def utf8Encode : List Nat → List Nat
  | [] => []
  | c :: cs => utf8EncodeChar c ++ utf8Encode cs

/-- UTF-8 decoding of a byte string, fuelled so that the recursion is
structural; one unit of fuel is spent per decoded character, so any
fuel of at least the byte length suffices (each character covers at
least one byte). -/
def utf8DecodeF : Nat → List Nat → Option (List Nat)
  | _, [] => some []
  | 0, _ :: _ => none
  | f + 1, b :: rest =>
    if b < 128 then (utf8DecodeF f rest).map (b :: ·)
    else if b < 192 then none
    else if b < 224 then
      match rest with
      | b2 :: rest2 =>
        if 128 ≤ b2 ∧ b2 < 192 then
          (utf8DecodeF f rest2).map (((b - 192) * 64 + (b2 - 128)) :: ·)
        else none
      | [] => none
    else if b < 240 then
      match rest with
      | b2 :: b3 :: rest3 =>
        if (128 ≤ b2 ∧ b2 < 192) ∧ (128 ≤ b3 ∧ b3 < 192) then
          (utf8DecodeF f rest3).map
            (((b - 224) * 4096 + (b2 - 128) * 64 + (b3 - 128)) :: ·)
        else none
      | _ => none
    else
      match rest with
      | b2 :: b3 :: b4 :: rest4 =>
        if (128 ≤ b2 ∧ b2 < 192) ∧ (128 ≤ b3 ∧ b3 < 192) ∧ (128 ≤ b4 ∧ b4 < 192) then
          (utf8DecodeF f rest4).map
            (((b - 240) * 262144 + (b2 - 128) * 4096 + (b3 - 128) * 64 + (b4 - 128)) :: ·)
        else none
      | _ => none

/-- UTF-8 decoding of a byte string (Python bytes.decode('utf-8'));
none models UnicodeDecodeError. -/
def utf8Decode (l : List Nat) : Option (List Nat) := utf8DecodeF l.length l

/-- The base64 alphabet (index 0..63 to character code), as used by
base64.b64encode. -/
def b64Char (n : Nat) : Nat :=
  if n < 26 then 65 + n
  else if n < 52 then 97 + (n - 26)
  else if n < 62 then 48 + (n - 52)
  else if n = 62 then 43
  else 47

/-- Inverse of the base64 alphabet; none for characters outside it
(61 is '=', the padding character, which is not in the alphabet). -/
def b64Inv (c : Nat) : Option Nat :=
  if 65 ≤ c ∧ c ≤ 90 then some (c - 65)
  else if 97 ≤ c ∧ c ≤ 122 then some (c - 97 + 26)
  else if 48 ≤ c ∧ c ≤ 57 then some (c - 48 + 52)
  else if c = 43 then some 62
  else if c = 47 then some 63
  else none

/-- Python base64.b64encode of a byte string, producing the character
codes of the base64 text (61 is '='). -/
def base64Encode : List Nat → List Nat
  | [] => []
  | [b1] => [b64Char (b1 / 4), b64Char (b1 % 4 * 16), 61, 61]
  | [b1, b2] =>
    [b64Char (b1 / 4), b64Char (b1 % 4 * 16 + b2 / 16), b64Char (b2 % 16 * 4), 61]
  | b1 :: b2 :: b3 :: rest =>
    b64Char (b1 / 4) :: b64Char (b1 % 4 * 16 + b2 / 16) ::
    b64Char (b2 % 16 * 4 + b3 / 64) :: b64Char (b3 % 64) :: base64Encode rest

/-- Python base64.b64decode (canonical form); none models binascii.Error. -/
def base64Decode : List Nat → Option (List Nat)
  | [] => some []
  | c1 :: c2 :: c3 :: c4 :: rest =>
    match b64Inv c1, b64Inv c2 with
    | some n1, some n2 =>
      if c3 = 61 then
        if c4 = 61 ∧ rest = [] ∧ n2 % 16 = 0 then some [n1 * 4 + n2 / 16] else none
      else
        match b64Inv c3 with
        | some n3 =>
          if c4 = 61 then
            if rest = [] ∧ n3 % 4 = 0 then
              some [n1 * 4 + n2 / 16, n2 % 16 * 16 + n3 / 4]
            else none
          else
            match b64Inv c4, base64Decode rest with
            | some n4, some tl =>
              some ((n1 * 4 + n2 / 16) :: (n2 % 16 * 16 + n3 / 4) :: (n3 % 4 * 64 + n4) :: tl)
            | _, _ => none
        | none => none
    | _, _ => none
  | _ => none

/-- Model of PBKDF2-HMAC-SHA256 (100000 iterations, 32-byte output) from
the cryptography library, an external dependency: an unspecified
deterministic 32-byte function of the password bytes and the salt. -/
def pbkdf2 (password salt : List Nat) : List Nat :=
  (List.range 32).map (fun i =>
    (password.foldl (fun a c => (a * 131 + c) % 65536) 7 +
     salt.foldl (fun a c => (a * 31 + c) % 65536) 11 + i * 37) % 256)

/-- Model of the AES-256-GCM keystream of the cryptography library (an
external dependency): n pseudo-random bytes determined by key and IV.
Encryption and decryption are XOR with this keystream, which preserves
the contract the vault code relies on: decryption under the same key
and IV inverts encryption. -/
def keystream (key iv : List Nat) (n : Nat) : List Nat :=
  (List.range n).map (fun i =>
    (key.foldl (fun a c => (a * 7 + c) % 65536) 3 +
     iv.foldl (fun a c => (a * 13 + c) % 65536) 5 + i * 17) % 256)

/-- Model of the GCM authentication tag of the cryptography library (an
external dependency): a deterministic 16-byte function of key, IV and
ciphertext.  Tag verification succeeds exactly when the stored tag
equals this recomputation. -/
def ghash (key iv ct : List Nat) : List Nat :=
  (List.range 16).map (fun i =>
    (key.foldl (fun a c => (a * 257 + c) % 65536) 1 +
     iv.foldl (fun a c => (a * 253 + c) % 65536) 9 +
     ct.foldl (fun a c => (a * 251 + c) % 65536) 13 + i * 29) % 256)

/-- XOR of two byte strings, pointwise (the stream-cipher part of the
AES-GCM model). -/
def zipXor (as bs : List Nat) : List Nat := List.zipWith (· ^^^ ·) as bs

/-- Error taxonomy of the vault code: which Python exception (or Flask
error response) an operation ended in.  NotFound is FileNotFoundError
(HTTP 404), IntegrityError is the InvalidTag failure of GCM
finalization, FormatError is the ValueError raised for a malformed
envelope (base64 error, or IV/tag extracted with the wrong length
because the decoded envelope is shorter than the 60-byte header),
UnicodeError is UnicodeDecodeError, UnsupportedFormat is the
ValueError for a vault path with an unknown tag, NoStorage/NoService
model the AttributeError/Exception raised when the needed client is
not initialized, and TypeMismatch is the TypeError raised when a str
value reaches an API that requires bytes (io.BytesIO). -/
inductive VError where
  | NotFound
  | IntegrityError
  | FormatError
  | UnicodeError
  | UnsupportedFormat
  | NoStorage
  | NoService
  | TypeMismatch
deriving DecidableEq

deriving instance DecidableEq for Except

/-- The random bytes one call of VaultManager.generate_fips_compliant_key
and VaultManager.encrypt_data_fips draws via secrets.token_bytes:
a 32-byte key, a 32-byte salt and a 12-byte IV. -/
structure FipsRandom where
  key : List Nat
  salt : List Nat
  iv : List Nat
deriving DecidableEq

/-- Well-formedness of drawn randomness: the sizes secrets.token_bytes
was asked for, with byte values below 256. -/
def FipsRandom.WF (r : FipsRandom) : Prop :=
  r.key.length = 32 ∧ (∀ b ∈ r.key, b < 256) ∧
  r.salt.length = 32 ∧ (∀ b ∈ r.salt, b < 256) ∧
  r.iv.length = 12 ∧ (∀ b ∈ r.iv, b < 256)

instance (r : FipsRandom) : Decidable r.WF := by
  unfold FipsRandom.WF; infer_instance

/-- VaultManager.generate_fips_compliant_key (vault_manager.py lines
375-391): with a password, PBKDF2 over a fresh random salt; without,
a fresh random key and salt. -/
def generate_fips_compliant_key (r : FipsRandom) (password : Option (List Nat)) :
    List Nat × List Nat :=
  match password with
  | some pw => (pbkdf2 (utf8Encode pw) r.salt, r.salt)
  | none => (r.key, r.salt)

/-- The key VaultManager.decrypt_data_fips reconstructs (lines 442-455):
PBKDF2 over the transmitted salt when a password is supplied, otherwise
the placeholder all-zero key the code falls back to. -/
def fipsKey (password : Option (List Nat)) (salt : List Nat) : List Nat :=
  match password with
  | some pw => pbkdf2 (utf8Encode pw) salt
  | none => List.replicate 32 0

/-- VaultManager.encrypt_data_fips (lines 393-428): derive key and salt,
draw a 96-bit IV, AES-256-GCM encrypt the UTF-8 bytes of the data, and
base64-encode salt ++ iv ++ tag ++ ciphertext. -/
def encrypt_data_fips (r : FipsRandom) (data : List Nat)
    (password : Option (List Nat)) : List Nat :=
  let ks := generate_fips_compliant_key r password
  let iv := r.iv
  let db := utf8Encode data
  let ct := zipXor db (keystream ks.1 iv db.length)
  let tag := ghash ks.1 iv ct
  base64Encode (ks.2 ++ iv ++ tag ++ ct)

/-- VaultManager.decrypt_data_fips (lines 430-472): base64-decode, split
off the 32-byte salt, 12-byte IV and 16-byte tag, reconstruct the key
(PBKDF2 with a password, the all-zero placeholder without), decrypt and
verify the tag.  A decoded envelope shorter than the 60-byte header
makes the GCM construction raise ValueError (IV shorter than 8 bytes or
tag shorter than 16 bytes), modelled as FormatError; a tag mismatch is
the InvalidTag of finalization, modelled as IntegrityError. -/
def decrypt_data_fips (envelope : List Nat) (password : Option (List Nat)) :
    Except VError (List Nat) :=
  match base64Decode envelope with
  | none => .error .FormatError
  | some bytes =>
    if bytes.length < 60 then .error .FormatError
    else
      let salt := bytes.take 32
      let iv := (bytes.drop 32).take 12
      let tag := (bytes.drop 44).take 16
      let ct := bytes.drop 60
      let key := fipsKey password salt
      if tag = ghash key iv ct then
        match utf8Decode (zipXor ct (keystream key iv ct.length)) with
        | some s => .ok s
        | none => .error .UnicodeError
      else .error .IntegrityError

/-- Code points of a Lean string literal, for feeding Python str values
into the byte-level crypto model. -/
def strCodes (s : String) : List Nat := s.data.map Char.toNat

/-- Model of the external Cloud KMS service (Google Cloud, not code of
this repository): an unspecified deterministic byte-wise bijection keyed
by the key name. -/
def kmsShift (keyName : String) : Nat :=
  keyName.data.foldl (fun a c => (a + c.toNat) % 256) 1

/-- Cloud KMS encryption model (see kmsShift). -/
def kmsEncrypt (keyName : String) (data : List Nat) : List Nat :=
  data.map (fun b => (b + kmsShift keyName) % 256)

/-- Cloud KMS decryption model, inverse of kmsEncrypt. -/
def kmsDecrypt (keyName : String) (data : List Nat) : List Nat :=
  data.map (fun b => (b + 256 - kmsShift keyName) % 256)

/-- The fixed metadata keys VaultManager.store_document attaches to a
stored blob (lines 539-546).  The encrypted flag is the string "true"
or "false", exactly as the code stores and later compares it. -/
structure BlobMeta where
  original_file_id : String
  original_file_name : String
  storage_timestamp : String
  encrypted : String
  kms_key_name : String
  content_type : String
deriving DecidableEq

/-- One object in the vault bucket: uploaded content and metadata. -/
structure Blob where
  content : List Nat
  meta : BlobMeta
deriving DecidableEq

/-- The configuration and backend state one VaultManager instance sees:
which clients initialized (storage, Drive, KMS), the configured KMS key
name (None when unset), the FIPS toggle, the storage preference
(bucket, drive or hybrid), the Drive vault folder id, the blobs in the
vault bucket, and the files in the Drive vault folder.  No code path of
the class ever uploads a Drive file (Drive writes are simulated), so
driveFiles records that fact by never being written. -/
structure VaultState where
  storage_client : Bool
  drive_service : Bool
  kms_client : Bool
  kms_key_name : Option String
  fips_enabled : Bool
  storage_preference : String
  drive_vault_folder_id : String
  bucket : List (String × Blob)
  driveFiles : List (String × List Nat)
deriving DecidableEq

/-- Replace the bucket contents of a state. -/
def VaultState.setBucket (st : VaultState) (b : List (String × Blob)) : VaultState :=
  ⟨st.storage_client, st.drive_service, st.kms_client, st.kms_key_name,
   st.fips_enabled, st.storage_preference, st.drive_vault_folder_id, b,
   st.driveFiles⟩

/-- Look a blob up by name (google.cloud.storage bucket.blob + exists). -/
def findBlob : List (String × Blob) → String → Option Blob
  | [], _ => none
  | (k, b) :: rest, n => if k = n then some b else findBlob rest n

/-- Upload a blob, overwriting any previous object of the same name. -/
def putBlob (l : List (String × Blob)) (n : String) (b : Blob) :
    List (String × Blob) :=
  (n, b) :: l.filter (fun kv => kv.1 ≠ n)

/-- Delete a blob by name. -/
def eraseBlob (l : List (String × Blob)) (n : String) : List (String × Blob) :=
  l.filter (fun kv => kv.1 ≠ n)

/-- VaultManager.encrypt_data (lines 474-498): Cloud KMS when a key name
is configured and the KMS client is up; otherwise FIPS AES-256-GCM when
FIPS mode is enabled, with scheme id FIPS_AES256_GCM; otherwise the
plain data with scheme None. -/
def encrypt_data (st : VaultState) (r : FipsRandom) (data : List Nat) :
    List Nat × Option String :=
  match st.kms_key_name with
  | some k =>
    if st.kms_client = true then (kmsEncrypt k (utf8Encode data), some k)
    else if st.fips_enabled = true then
      (encrypt_data_fips r data none, some "FIPS_AES256_GCM")
    else (data, none)
  | none =>
    if st.fips_enabled = true then
      (encrypt_data_fips r data none, some "FIPS_AES256_GCM")
    else (data, none)

/-- VaultManager.decrypt_data (lines 500-520): Cloud KMS when the
recorded key name equals the configured one and the KMS client is up;
otherwise FIPS decryption (with no password) when the recorded scheme
is FIPS_AES256_GCM; otherwise the data is returned unchanged after a
"No decryption method available" warning. -/
def decrypt_data (st : VaultState) (data : List Nat) (key_name : Option String) :
    Except VError (List Nat) :=
  if key_name = st.kms_key_name ∧ st.kms_client = true then
    match utf8Decode (kmsDecrypt (key_name.getD "") data) with
    | some s => .ok s
    | none => .error .UnicodeError
  else if key_name = some "FIPS_AES256_GCM" then
    decrypt_data_fips data none
  else .ok data

/-- Whether encrypt_data takes the Cloud KMS branch - the only branch
whose ciphertext is a Python bytes value; the FIPS branch returns the
base64 str envelope and the plain fallback returns the str input
(vault_manager.py lines 474-498). -/
def encryptReturnsBytes (st : VaultState) : Bool :=
  st.kms_key_name.isSome && st.kms_client

/-- The dict VaultManager.store_document returns on success. -/
structure StoreResult where
  vault_path : String
  encrypted : Bool
  storage_timestamp : String
deriving DecidableEq

/-- VaultManager.store_document (lines 522-611).  The bucket branch is
taken for preference bucket, or hybrid with a storage client; it
encrypts the content, uploads it under
documents/{file_id}_{timestamp}_{file_name} and returns that bare blob
name as vault_path.  The drive branch (preference drive with a Drive
service) encrypts a dummy string and wraps it in
io.BytesIO/MediaIoBaseUpload (lines 579-583): io.BytesIO requires a
bytes value, so unless the KMS branch encrypted (the only branch
returning bytes) this raises TypeError, surfaced by the outer handler;
when it survives, the branch uploads nothing (the upload is simulated)
and returns a path with the drive:// tag.  Any other configuration
returns the "No storage client available" error.  nowCompact and nowIso
are the two strftime/isoformat renderings of the current time; the
optional caller metadata merge is omitted because no verified claim
passes custom metadata. -/
def store_document (st : VaultState) (r : FipsRandom) (nowCompact nowIso : String)
    (file_id file_name : String) (content : List Nat) :
    VaultState × Except VError StoreResult :=
  if st.storage_preference = "bucket" ∨
      (st.storage_preference = "hybrid" ∧ st.storage_client = true) then
    if st.storage_client = true then
      let blob_name := strAppend "documents/" (strAppend file_id (strAppend "_"
        (strAppend nowCompact (strAppend "_" file_name))))
      let ec := encrypt_data st r content
      let meta : BlobMeta := ⟨file_id, file_name, nowIso,
        if ec.2.isSome then "true" else "false",
        ec.2.getD "",
        if ec.2.isSome then "application/octet-stream" else "text/plain"⟩
      (st.setBucket (putBlob st.bucket blob_name ⟨ec.1, meta⟩),
       .ok ⟨blob_name, ec.2.isSome, nowIso⟩)
    else (st, .error .NoStorage)
  else if st.storage_preference = "drive" ∧ st.drive_service = true then
    let dummy := strCodes (strAppend "Encrypted content for "
      (strAppend file_name (strAppend " (ID: " (strAppend file_id ")"))))
    let ec := encrypt_data st r dummy
    if encryptReturnsBytes st then
      let fname := strAppend file_id (strAppend "_" (strAppend nowCompact
        (strAppend "_" file_name)))
      (st, .ok ⟨strAppend "drive://" (strAppend st.drive_vault_folder_id
        (strAppend "/" fname)), ec.2.isSome, nowIso⟩)
    else (st, .error .TypeMismatch)
  else (st, .error .NoStorage)

/-- Split a drive path at its first '/' (drive_path.split('/', 1)). -/
def strSplitSlash1 (s : String) : String × String :=
  let pre := s.data.takeWhile (fun c => c ≠ '/')
  (⟨pre⟩, ⟨(s.data.drop pre.length).drop 1⟩)

/-- What VaultManager.retrieve_document returns on success: the (possibly
decrypted) content and the stored metadata. -/
structure RetrieveResult where
  content : List Nat
  meta : BlobMeta
deriving DecidableEq

/-- VaultManager.retrieve_document (lines 613-670).  A bucket:// path is
looked up in the vault bucket (NotFound if absent) and decrypted via the
scheme recorded in its metadata when the encrypted flag is "true" and a
key name is recorded; a decryption failure propagates as the error of
the whole retrieval (the route returns it as a 500).  A drive:// path is
split into folder and file name and answered with simulated content: a
freshly encrypted dummy string.  Any other path raises the unsupported
vault path format ValueError.  r is the randomness the simulated drive
branch draws for its dummy encryption. -/
def retrieve_document (st : VaultState) (r : FipsRandom) (path : String) :
    Except VError RetrieveResult :=
  if strStartsWith path "bucket://" then
    if st.storage_client = true then
      match findBlob st.bucket (strDrop path 9) with
      | none => .error .NotFound
      | some blob =>
        if blob.meta.encrypted = "true" ∧ blob.meta.kms_key_name ≠ "" then
          match decrypt_data st blob.content (some blob.meta.kms_key_name) with
          | .ok c => .ok ⟨c, blob.meta⟩
          | .error e => .error e
        else .ok ⟨blob.content, blob.meta⟩
    else .error .NoStorage
  else if strStartsWith path "drive://" then
    if strHasSlash (strDrop path 8) then
      if st.drive_service = true then
        let parts := strSplitSlash1 (strDrop path 8)
        let dummy := strCodes (strAppend "Retrieved content for "
          (strAppend parts.2 (strAppend " (folder ID: " (strAppend parts.1 ")"))))
        let ec := encrypt_data st r dummy
        .ok ⟨ec.1, ⟨"dummy_id", parts.2, "", "true", ec.2.getD "", ""⟩⟩
      else .error .NoService
    else .error .FormatError
  else .error .UnsupportedFormat

/-- VaultManager.delete_document (lines 723-756).  A bucket:// path is
deleted from the vault bucket after an existence check (NotFound if
absent).  A drive:// path is split and then "deleted" by the simulated
branch, which always reports success when the Drive service is up.  Any
other path raises the unsupported format ValueError. -/
def delete_document (st : VaultState) (path : String) :
    VaultState × Except VError Bool :=
  if strStartsWith path "bucket://" then
    if st.storage_client = true then
      if (findBlob st.bucket (strDrop path 9)).isSome then
        (st.setBucket (eraseBlob st.bucket (strDrop path 9)), .ok true)
      else (st, .error .NotFound)
    else (st, .error .NoStorage)
  else if strStartsWith path "drive://" then
    if strHasSlash (strDrop path 8) then
      if st.drive_service = true then (st, .ok true)
      else (st, .error .NoService)
    else (st, .error .FormatError)
  else (st, .error .UnsupportedFormat)

/-- One record of VaultManager.list_vault_documents. -/
structure DocEntry where
  vault_path : String
  original_file_id : String
  original_file_name : String
  size : Nat
  encrypted : Bool
  storage_timestamp : String
deriving DecidableEq

/-- VaultManager.list_vault_documents (lines 672-721).  Only preference
bucket (with a storage client) lists the vault bucket, with bucket://
tags, the requested name filter (documents/ when none is given) and the
result limit; only preference drive (with a Drive service) answers, with
one simulated record.  Every other preference - hybrid included - falls
through to the empty list. -/
def list_vault_documents (st : VaultState) (r : FipsRandom) (nowIso : String)
    (pfx : Option String) (limit : Nat) : List DocEntry :=
  if st.storage_preference = "bucket" ∧ st.storage_client = true then
    ((st.bucket.filter (fun kv => strStartsWith kv.1 (pfx.getD "documents/"))).take
      limit).map (fun kv =>
        ⟨strAppend "bucket://" kv.1, kv.2.meta.original_file_id,
         kv.2.meta.original_file_name, kv.2.content.length,
         kv.2.meta.encrypted == "true", kv.2.meta.storage_timestamp⟩)
  else if st.storage_preference = "drive" ∧ st.drive_service = true then
    let dummy := strCodes (strAppend "Listed content for folder "
      st.drive_vault_folder_id)
    let ec := encrypt_data st r dummy
    [⟨strAppend "drive://" (strAppend st.drive_vault_folder_id "/dummy_file.txt"),
      "dummy_id", "dummy_file.txt", ec.1.length, true, nowIso⟩]
  else []

/-- The parsed fields of one scan-result JSON blob that the auto-migrate
route reads: total_findings and the file_info block. -/
structure ScanInfo where
  total_findings : Nat
  file_id : String
  file_name : String
deriving DecidableEq

/-- One blob of the scan-results bucket as the auto-migrate loop sees
it: its name, the combined outcome of download_as_text plus json.loads
(error models the exception either raises), and the outcome of the
vault_manager.migrate_sensitive_file call for it (error models any
exception that call raises; ok carries the vault path). -/
structure ScanBlob where
  name : String
  parsed : Except String ScanInfo
  migrateResult : Except String String
deriving DecidableEq

/-- One entry of the migrated_files list of the auto-migrate route. -/
structure MigratedEntry where
  file_id : String
  file_name : String
  findings_count : Nat
  vault_path : String
deriving DecidableEq

/-- The body of the per-blob loop of auto_migrate_sensitive_files
(vault_manager.py lines 1234-1266): blobs whose name does not end in
.json are skipped; inside the per-item try, a download/parse failure or
a migration failure appends the blob name to failed_files and the loop
continues; an eligible item (total_findings at least min_findings) that
migrates cleanly is appended to migrated_files; a parsed item below the
threshold is skipped silently. -/
def processScanBlob (minFindings : Nat)
    (acc : List MigratedEntry × List String) (b : ScanBlob) :
    List MigratedEntry × List String :=
  if strEndsWith b.name ".json" then
    match b.parsed with
    | .error _ => (acc.1, acc.2 ++ [b.name])
    | .ok info =>
      if minFindings ≤ info.total_findings then
        match b.migrateResult with
        | .error _ => (acc.1, acc.2 ++ [b.name])
        | .ok vp =>
          (acc.1 ++ [⟨info.file_id, info.file_name, info.total_findings, vp⟩], acc.2)
      else acc
  else acc

/-- The auto_migrate_sensitive_files route (lines 1219-1277): fold the
per-blob loop over the scan-results listing, collecting migrated_files
and failed_files independently. -/
def auto_migrate_sensitive_files (minFindings : Nat) (blobs : List ScanBlob) :
    List MigratedEntry × List String :=
  blobs.foldl (processScanBlob minFindings) ([], [])

/-- Byte strings: every element is a byte value. -/
def Bytes (l : List Nat) : Prop := ∀ b ∈ l, b < 256

/-- Valid Python strings: every element is a Unicode code point. -/
def ValidStr (s : List Nat) : Prop := ∀ c ∈ s, c < 1114112

instance (l : List Nat) : Decidable (Bytes l) := by unfold Bytes; infer_instance

instance (s : List Nat) : Decidable (ValidStr s) := by unfold ValidStr; infer_instance

/-- Whether an Except is a success (used to state that simulated drive
operations never raise). -/
def exceptOk {ε α : Type} : Except ε α → Bool
  | .ok _ => true
  | .error _ => false

/-- Whether an Except is a success, for the migration outcome fields. -/
def migrateOk (b : ScanBlob) : Bool := exceptOk b.migrateResult

/-- Concrete randomness used by witnesses. -/
def rand0 : FipsRandom :=
  ⟨List.replicate 32 1, List.replicate 32 2, List.replicate 12 3⟩

/-- A second, different draw of randomness. -/
def rand1 : FipsRandom :=
  ⟨List.replicate 32 7, List.replicate 32 8, List.replicate 12 9⟩

/-- The configuration of the C1 scenario: storage client up, FIPS mode
on, no managed KMS key, the default hybrid preference, empty vault. -/
def stFips : VaultState :=
  ⟨true, false, false, none, true, "hybrid", "folder1", [], []⟩

/-- The content of the C1 scenario. -/
def ssnContent : List Nat := strCodes "SSN 123-45-6789"

/-- The store call of the C1/C3 scenario, at a fixed clock reading. -/
def runStore : VaultState × Except VError StoreResult :=
  store_document stFips rand0 "20250101_000000" "2025-01-01T00:00:00"
    "f1" "report.txt" ssnContent

/-- The blob name the C1/C3 store produces. -/
def storePath : String := "documents/f1_20250101_000000_report.txt"

/-- Hybrid state with both backends configured and healthy. -/
def stHybridBoth : VaultState :=
  ⟨true, true, false, none, true, "hybrid", "folder1", [], []⟩

/-- Hybrid state in which the bucket backend is unavailable while Drive
is up: the one-backend-failing scenario of C4. -/
def stHybridNoBucket : VaultState :=
  ⟨false, true, false, none, true, "hybrid", "folder1", [], []⟩

/-- The hybrid-mode store of the C4 scenario, both backends healthy. -/
def c4Run : VaultState × Except VError StoreResult :=
  store_document stHybridBoth rand0 "20250101_000000" "2025-01-01T00:00:00"
    "f1" "report.txt" ssnContent

/-- The hybrid-mode store of the C4 partial-failure scenario: the
bucket backend unavailable, Drive healthy. -/
def c4RunNoBucket : VaultState × Except VError StoreResult :=
  store_document stHybridNoBucket rand0 "20250101_000000" "2025-01-01T00:00:00"
    "f1" "report.txt" ssnContent

/-- An unencrypted blob used by listing and deletion witnesses. -/
def blobA : Blob :=
  ⟨strCodes "hello", ⟨"fA", "a.txt", "2025-01-01T00:00:00", "false", "", "text/plain"⟩⟩

/-- Hybrid state holding one stored bucket document (C5, C6). -/
def stHybridOneDoc : VaultState :=
  ⟨true, true, false, none, true, "hybrid", "folder1", [("documents/a", blobA)], []⟩

/-- The same state with preference bucket, for contrast in C5. -/
def stBucketOneDoc : VaultState :=
  ⟨true, true, false, none, true, "bucket", "folder1", [("documents/a", blobA)], []⟩

/-- A drive address that was never stored. -/
def drivePathX : String := "drive://folder1/doc.txt"

/-- First simulated-drive delete of the C6 counterexample. -/
def c6FirstDelete : VaultState × Except VError Bool :=
  delete_document stHybridBoth drivePathX

/-- The bucket address of the one stored document of stHybridOneDoc. -/
def bucketAddrA : String := strAppend "bucket://" "documents/a"

/-- Migration batch for C7: three eligible scan results, the middle one
failing at its migrate step. -/
def scanOk1 : ScanBlob := ⟨"scan_results/a.json", .ok ⟨3, "fa", "a.txt"⟩, .ok "documents/a"⟩

/-- Failing middle item of the C7 batch. -/
def scanBad : ScanBlob :=
  ⟨"scan_results/b.json", .error "content download failed", .ok "unused"⟩

/-- Third, succeeding item of the C7 batch. -/
def scanOk2 : ScanBlob := ⟨"scan_results/c.json", .ok ⟨5, "fc", "c.txt"⟩, .ok "documents/c"⟩

/-- The three-item migration batch of the C7 witness. -/
def scanBatchW : List ScanBlob := [scanOk1, scanBad, scanOk2]

/-- Plaintext of the C2 witness. -/
def wPlain : List Nat := strCodes "Attack at dawn"

/-- Password of the C2 witness. -/
def wPw : List Nat := strCodes "hunter2"

/-- A decodable envelope whose decoded form is shorter than the header. -/
def envShort : List Nat := base64Encode [0, 0]

/-- A 60-byte all-zero envelope, whose zero tag does not match the
recomputed tag. -/
def envZeros : List Nat := base64Encode (List.replicate 60 0)

/-- A scan blob the auto-migrate loop counts as one batch item: its
name ends in .json (others are skipped silently) and, when it parses,
its findings count meets the threshold (parsed items below the
threshold are skipped silently, so they are not batch items either).
A blob whose download or parse raises is still a counted item - it
lands in failed_files. -/
def countedBlob (minF : Nat) (b : ScanBlob) : Bool :=
  strEndsWith b.name ".json" &&
    (match b.parsed with
     | .ok i => decide (minF ≤ i.total_findings)
     | .error _ => true)

/-- Whether one counted batch item goes through cleanly: the download
and parse succeeded and the migrate call succeeded. -/
def blobOk (b : ScanBlob) : Bool :=
  (match b.parsed with
   | .ok _ => true
   | .error _ => false) && migrateOk b

theorem utf8DecodeF_nil (f : Nat) : utf8DecodeF f [] = some [] := by
  cases f <;> rfl

theorem keystream_length (key iv : List Nat) (n : Nat) :
    (keystream key iv n).length = n := by
  simp [keystream]

theorem keystream_bytes (key iv : List Nat) (n : Nat) : Bytes (keystream key iv n) := by
  intro b hb
  simp only [keystream, List.mem_map, List.mem_range] at hb
  obtain ⟨i, _, hi⟩ := hb
  omega

theorem ghash_length (key iv ct : List Nat) : (ghash key iv ct).length = 16 := by
  simp [ghash]

theorem ghash_bytes (key iv ct : List Nat) : Bytes (ghash key iv ct) := by
  intro b hb
  simp only [ghash, List.mem_map, List.mem_range] at hb
  obtain ⟨i, _, hi⟩ := hb
  omega

theorem zipXor_length (as bs : List Nat) :
    (zipXor as bs).length = min as.length bs.length := by
  simp [zipXor]

theorem zipXor_bytes : ∀ (as bs : List Nat), Bytes as → Bytes bs → Bytes (zipXor as bs)
  | [], _, _, _ => by intro x hx; simp [zipXor] at hx
  | _ :: _, [], _, _ => by intro x hx; simp [zipXor] at hx
  | a :: as, b :: bs, ha, hb => by
    intro x hx
    rw [show zipXor (a :: as) (b :: bs) = (a ^^^ b) :: zipXor as bs from rfl] at hx
    rcases List.mem_cons.mp hx with h | h
    · subst h
      exact Nat.xor_lt_two_pow (n := 8) (ha a (by simp)) (hb b (by simp))
    · exact zipXor_bytes as bs (fun y hy => ha y (by simp [hy]))
        (fun y hy => hb y (by simp [hy])) x h

theorem zipXor_cancel : ∀ (as bs : List Nat), as.length ≤ bs.length →
    zipXor (zipXor as bs) bs = as
  | [], _, _ => rfl
  | a :: as, [], h => by simp at h
  | a :: as, b :: bs, h => by
    rw [show zipXor (a :: as) (b :: bs) = (a ^^^ b) :: zipXor as bs from rfl]
    rw [show zipXor ((a ^^^ b) :: zipXor as bs) (b :: bs) =
      ((a ^^^ b) ^^^ b) :: zipXor (zipXor as bs) bs from rfl]
    rw [Nat.xor_cancel_right]
    rw [zipXor_cancel as bs (by simpa using h)]

theorem generate_key_salt (r : FipsRandom) (pw : Option (List Nat)) :
    (generate_fips_compliant_key r pw).2 = r.salt := by
  cases pw <;> rfl

theorem utf8DecodeF_cons (f b : Nat) (rest : List Nat) :
    utf8DecodeF (f + 1) (b :: rest) =
      (if b < 128 then (utf8DecodeF f rest).map (b :: ·)
      else if b < 192 then none
      else if b < 224 then
        (match rest with
         | b2 :: rest2 =>
           if 128 ≤ b2 ∧ b2 < 192 then
             (utf8DecodeF f rest2).map (((b - 192) * 64 + (b2 - 128)) :: ·)
           else none
         | [] => none)
      else if b < 240 then
        (match rest with
         | b2 :: b3 :: rest3 =>
           if (128 ≤ b2 ∧ b2 < 192) ∧ (128 ≤ b3 ∧ b3 < 192) then
             (utf8DecodeF f rest3).map
               (((b - 224) * 4096 + (b2 - 128) * 64 + (b3 - 128)) :: ·)
           else none
         | _ => none)
      else
        (match rest with
         | b2 :: b3 :: b4 :: rest4 =>
           if (128 ≤ b2 ∧ b2 < 192) ∧ (128 ≤ b3 ∧ b3 < 192) ∧ (128 ≤ b4 ∧ b4 < 192) then
             (utf8DecodeF f rest4).map
               (((b - 240) * 262144 + (b2 - 128) * 4096 + (b3 - 128) * 64 + (b4 - 128)) :: ·)
           else none
         | _ => none)) := rfl

theorem utf8DecodeF_encodeChar (c : Nat) (hc : c < 1114112) (f : Nat) (rest : List Nat) :
    utf8DecodeF (f + 1) (utf8EncodeChar c ++ rest) = (utf8DecodeF f rest).map (c :: ·) := by
  unfold utf8EncodeChar
  by_cases h1 : c < 128
  · rw [if_pos h1]
    simp only [List.cons_append, List.nil_append]
    rw [utf8DecodeF_cons, if_pos h1]
  · by_cases h2 : c < 2048
    · rw [if_neg h1, if_pos h2]
      simp only [List.cons_append, List.nil_append]
      rw [utf8DecodeF_cons]
      rw [if_neg (by omega), if_neg (by omega), if_pos (by omega)]
      show (if 128 ≤ 128 + c % 64 ∧ 128 + c % 64 < 192 then
          (utf8DecodeF f rest).map (((192 + c / 64 - 192) * 64 + (128 + c % 64 - 128)) :: ·)
        else none) = (utf8DecodeF f rest).map (c :: ·)
      rw [if_pos (by omega)]
      have h : (192 + c / 64 - 192) * 64 + (128 + c % 64 - 128) = c := by omega
      rw [h]
    · by_cases h3 : c < 65536
      · rw [if_neg h1, if_neg h2, if_pos h3]
        simp only [List.cons_append, List.nil_append]
        rw [utf8DecodeF_cons]
        rw [if_neg (by omega), if_neg (by omega), if_neg (by omega), if_pos (by omega)]
        show (if (128 ≤ 128 + c / 64 % 64 ∧ 128 + c / 64 % 64 < 192) ∧
            (128 ≤ 128 + c % 64 ∧ 128 + c % 64 < 192) then
            (utf8DecodeF f rest).map (((224 + c / 4096 - 224) * 4096 +
              (128 + c / 64 % 64 - 128) * 64 + (128 + c % 64 - 128)) :: ·)
          else none) = (utf8DecodeF f rest).map (c :: ·)
        rw [if_pos (by omega)]
        have h : (224 + c / 4096 - 224) * 4096 + (128 + c / 64 % 64 - 128) * 64 +
            (128 + c % 64 - 128) = c := by omega
        rw [h]
      · rw [if_neg h1, if_neg h2, if_neg h3]
        simp only [List.cons_append, List.nil_append]
        rw [utf8DecodeF_cons]
        rw [if_neg (by omega), if_neg (by omega), if_neg (by omega), if_neg (by omega)]
        show (if (128 ≤ 128 + c / 4096 % 64 ∧ 128 + c / 4096 % 64 < 192) ∧
            (128 ≤ 128 + c / 64 % 64 ∧ 128 + c / 64 % 64 < 192) ∧
            (128 ≤ 128 + c % 64 ∧ 128 + c % 64 < 192) then
            (utf8DecodeF f rest).map (((240 + c / 262144 - 240) * 262144 +
              (128 + c / 4096 % 64 - 128) * 4096 + (128 + c / 64 % 64 - 128) * 64 +
              (128 + c % 64 - 128)) :: ·)
          else none) = (utf8DecodeF f rest).map (c :: ·)
        rw [if_pos (by omega)]
        have h : (240 + c / 262144 - 240) * 262144 + (128 + c / 4096 % 64 - 128) * 4096 +
            (128 + c / 64 % 64 - 128) * 64 + (128 + c % 64 - 128) = c := by omega
        rw [h]

theorem utf8DecodeF_encode (s : List Nat) (hs : ValidStr s) :
    ∀ f, s.length ≤ f → utf8DecodeF f (utf8Encode s) = some s := by
  induction s with
  | nil => intro f _; exact utf8DecodeF_nil f
  | cons c cs ih =>
    intro f hf
    cases f with
    | zero => simp at hf
    | succ g =>
      have hc : c < 1114112 := hs c (by simp)
      rw [show utf8Encode (c :: cs) = utf8EncodeChar c ++ utf8Encode cs from rfl]
      rw [utf8DecodeF_encodeChar c hc g (utf8Encode cs)]
      rw [ih (fun x hx => hs x (by simp [hx])) g (by simp at hf; omega)]
      rfl

theorem utf8EncodeChar_length_pos (c : Nat) : 1 ≤ (utf8EncodeChar c).length := by
  unfold utf8EncodeChar
  split
  · simp
  · split
    · simp
    · split <;> simp

theorem utf8Encode_length_ge (s : List Nat) : s.length ≤ (utf8Encode s).length := by
  induction s with
  | nil => simp [utf8Encode]
  | cons c cs ih =>
    rw [show utf8Encode (c :: cs) = utf8EncodeChar c ++ utf8Encode cs from rfl]
    simp only [List.length_append, List.length_cons]
    have := utf8EncodeChar_length_pos c
    omega

theorem utf8_roundtrip (s : List Nat) (hs : ValidStr s) :
    utf8Decode (utf8Encode s) = some s :=
  utf8DecodeF_encode s hs _ (utf8Encode_length_ge s)

theorem utf8EncodeChar_bytes (c : Nat) (hc : c < 1114112) :
    ∀ b ∈ utf8EncodeChar c, b < 256 := by
  unfold utf8EncodeChar
  split
  · intro b hb; simp at hb; omega
  · split
    · intro b hb; simp at hb; omega
    · split
      · intro b hb; simp at hb; omega
      · intro b hb; simp at hb; omega

theorem utf8Encode_bytes (s : List Nat) (hs : ValidStr s) : Bytes (utf8Encode s) := by
  induction s with
  | nil => intro b hb; simp [utf8Encode] at hb
  | cons c cs ih =>
    intro b hb
    rw [show utf8Encode (c :: cs) = utf8EncodeChar c ++ utf8Encode cs from rfl] at hb
    rcases List.mem_append.mp hb with h | h
    · exact utf8EncodeChar_bytes c (hs c (by simp)) b h
    · exact ih (fun x hx => hs x (by simp [hx])) b h

theorem b64Inv_b64Char : ∀ n, n < 64 → b64Inv (b64Char n) = some n := by decide

theorem b64Char_ne_pad : ∀ n, n < 64 → b64Char n ≠ 61 := by decide

theorem base64_roundtrip : ∀ (bs : List Nat), (∀ b ∈ bs, b < 256) →
    base64Decode (base64Encode bs) = some bs
  | [], _ => rfl
  | [b1], h => by
    have hb1 : b1 < 256 := h b1 (by simp)
    rw [base64Encode, base64Decode]
    rw [b64Inv_b64Char _ (by omega : b1 / 4 < 64),
      b64Inv_b64Char _ (by omega : b1 % 4 * 16 < 64)]
    simp only [if_pos rfl]
    rw [if_pos (show True ∧ True ∧ b1 % 4 * 16 % 16 = 0 from ⟨trivial, trivial, by omega⟩)]
    have e1 : b1 / 4 * 4 + b1 % 4 * 16 / 16 = b1 := by omega
    rw [e1]
    exact if_pos trivial
  | [b1, b2], h => by
    have hb1 : b1 < 256 := h b1 (by simp)
    have hb2 : b2 < 256 := h b2 (by simp)
    rw [base64Encode, base64Decode]
    rw [b64Inv_b64Char _ (by omega : b1 / 4 < 64),
      b64Inv_b64Char _ (by omega : b1 % 4 * 16 + b2 / 16 < 64)]
    simp only []
    rw [if_neg (b64Char_ne_pad _ (by omega)),
      b64Inv_b64Char _ (by omega : b2 % 16 * 4 < 64)]
    simp only [if_pos rfl]
    rw [if_pos (show True ∧ b2 % 16 * 4 % 4 = 0 from ⟨trivial, by omega⟩)]
    have e1 : b1 / 4 * 4 + (b1 % 4 * 16 + b2 / 16) / 16 = b1 := by omega
    have e2 : (b1 % 4 * 16 + b2 / 16) % 16 * 16 + b2 % 16 * 4 / 4 = b2 := by omega
    rw [e1, e2]
    exact if_pos trivial
  | [b1, b2, b3], h => by
    have hb1 : b1 < 256 := h b1 (by simp)
    have hb2 : b2 < 256 := h b2 (by simp)
    have hb3 : b3 < 256 := h b3 (by simp)
    rw [base64Encode, base64Decode]
    rw [b64Inv_b64Char _ (by omega : b1 / 4 < 64),
      b64Inv_b64Char _ (by omega : b1 % 4 * 16 + b2 / 16 < 64)]
    simp only []
    rw [if_neg (b64Char_ne_pad _ (by omega)),
      b64Inv_b64Char _ (by omega : b2 % 16 * 4 + b3 / 64 < 64)]
    simp only []
    rw [if_neg (b64Char_ne_pad _ (by omega)),
      b64Inv_b64Char _ (by omega : b3 % 64 < 64)]
    show some ((b1 / 4 * 4 + (b1 % 4 * 16 + b2 / 16) / 16) ::
      ((b1 % 4 * 16 + b2 / 16) % 16 * 16 + (b2 % 16 * 4 + b3 / 64) / 4) ::
      ((b2 % 16 * 4 + b3 / 64) % 4 * 64 + b3 % 64) :: []) = some [b1, b2, b3]
    have e1 : b1 / 4 * 4 + (b1 % 4 * 16 + b2 / 16) / 16 = b1 := by omega
    have e2 : (b1 % 4 * 16 + b2 / 16) % 16 * 16 + (b2 % 16 * 4 + b3 / 64) / 4 = b2 := by omega
    have e3 : (b2 % 16 * 4 + b3 / 64) % 4 * 64 + b3 % 64 = b3 := by omega
    rw [e1, e2, e3]
  | b1 :: b2 :: b3 :: bb :: bs, h => by
    have hb1 : b1 < 256 := h b1 (by simp)
    have hb2 : b2 < 256 := h b2 (by simp)
    have hb3 : b3 < 256 := h b3 (by simp)
    have htl : ∀ b ∈ bb :: bs, b < 256 := fun b hb =>
      h b (List.mem_cons_of_mem _ (List.mem_cons_of_mem _ (List.mem_cons_of_mem _ hb)))
    have ih : base64Decode (base64Encode (bb :: bs)) = some (bb :: bs) :=
      base64_roundtrip (bb :: bs) htl
    rw [base64Encode, base64Decode]
    rw [b64Inv_b64Char _ (by omega : b1 / 4 < 64),
      b64Inv_b64Char _ (by omega : b1 % 4 * 16 + b2 / 16 < 64)]
    simp only []
    rw [if_neg (b64Char_ne_pad _ (by omega)),
      b64Inv_b64Char _ (by omega : b2 % 16 * 4 + b3 / 64 < 64)]
    simp only []
    rw [if_neg (b64Char_ne_pad _ (by omega)),
      b64Inv_b64Char _ (by omega : b3 % 64 < 64), ih]
    show some ((b1 / 4 * 4 + (b1 % 4 * 16 + b2 / 16) / 16) ::
      ((b1 % 4 * 16 + b2 / 16) % 16 * 16 + (b2 % 16 * 4 + b3 / 64) / 4) ::
      ((b2 % 16 * 4 + b3 / 64) % 4 * 64 + b3 % 64) :: bb :: bs) =
      some (b1 :: b2 :: b3 :: bb :: bs)
    have e1 : b1 / 4 * 4 + (b1 % 4 * 16 + b2 / 16) / 16 = b1 := by omega
    have e2 : (b1 % 4 * 16 + b2 / 16) % 16 * 16 + (b2 % 16 * 4 + b3 / 64) / 4 = b2 := by omega
    have e3 : (b2 % 16 * 4 + b3 / 64) % 4 * 64 + b3 % 64 = b3 := by omega
    rw [e1, e2, e3]

theorem decrypt_data_fips_unfold (env bytes : List Nat) (pw : Option (List Nat))
    (hdec : base64Decode env = some bytes) :
    decrypt_data_fips env pw =
      (if bytes.length < 60 then .error .FormatError
       else if (bytes.drop 44).take 16 =
           ghash (fipsKey pw (bytes.take 32)) ((bytes.drop 32).take 12) (bytes.drop 60) then
         (match utf8Decode (zipXor (bytes.drop 60)
             (keystream (fipsKey pw (bytes.take 32)) ((bytes.drop 32).take 12)
               (bytes.drop 60).length)) with
          | some s => Except.ok s
          | none => Except.error VError.UnicodeError)
       else Except.error VError.IntegrityError) := by
  unfold decrypt_data_fips
  rw [hdec]

theorem decrypt_data_fips_encode (pwOpt : Option (List Nat)) (salt iv db : List Nat)
    (hsl : salt.length = 32) (hsb : Bytes salt)
    (hil : iv.length = 12) (hib : Bytes iv) (hdb : Bytes db) :
    decrypt_data_fips
      (base64Encode (salt ++ iv ++ ghash (fipsKey pwOpt salt) iv
        (zipXor db (keystream (fipsKey pwOpt salt) iv db.length)) ++
        zipXor db (keystream (fipsKey pwOpt salt) iv db.length))) pwOpt =
      (match utf8Decode db with
       | some s => Except.ok s
       | none => Except.error VError.UnicodeError) := by
  set K := fipsKey pwOpt salt with hK
  set ks := keystream K iv db.length with hks
  set C := zipXor db ks with hC
  set T := ghash K iv C with hT
  have hTl : T.length = 16 := ghash_length _ _ _
  have hTb : Bytes T := ghash_bytes _ _ _
  have hCl : C.length = db.length := by
    rw [hC, zipXor_length, hks, keystream_length]; omega
  have hCb : Bytes C := zipXor_bytes _ _ hdb (keystream_bytes _ _ _)
  have hpb : Bytes (salt ++ iv ++ T ++ C) := by
    intro b hb
    simp only [List.mem_append] at hb
    rcases hb with ((h | h) | h) | h
    · exact hsb b h
    · exact hib b h
    · exact hTb b h
    · exact hCb b h
  rw [decrypt_data_fips_unfold _ _ _ (base64_roundtrip _ hpb)]
  have hplen : (salt ++ iv ++ T ++ C).length = 60 + C.length := by
    simp [hsl, hil, hTl]; omega
  have hassoc1 : salt ++ iv ++ T ++ C = salt ++ (iv ++ (T ++ C)) := by
    simp [List.append_assoc]
  have hassoc2 : salt ++ iv ++ T ++ C = (salt ++ iv) ++ (T ++ C) := by
    simp [List.append_assoc]
  have h32 : (salt ++ iv ++ T ++ C).take 32 = salt := by
    rw [hassoc1]; exact List.take_left' hsl
  have h12 : ((salt ++ iv ++ T ++ C).drop 32).take 12 = iv := by
    rw [hassoc1, List.drop_left' hsl]; exact List.take_left' hil
  have h16 : ((salt ++ iv ++ T ++ C).drop 44).take 16 = T := by
    rw [hassoc2, List.drop_left' (by simp [hsl, hil] : (salt ++ iv).length = 44)]
    exact List.take_left' hTl
  have hd60 : (salt ++ iv ++ T ++ C).drop 60 = C :=
    List.drop_left' (by simp [hsl, hil, hTl])
  rw [if_neg (by omega)]
  rw [h16, h32, h12, hd60, ← hK, ← hT, if_pos rfl, hCl, ← hks, hC]
  rw [zipXor_cancel db ks (by rw [hks, keystream_length])]

theorem payload_take_salt (salt iv T C : List Nat) (hsl : salt.length = 32) :
    (salt ++ iv ++ T ++ C).take 32 = salt := by
  rw [show salt ++ iv ++ T ++ C = salt ++ (iv ++ (T ++ C)) by simp [List.append_assoc]]
  exact List.take_left' hsl

theorem payload_take_iv (salt iv T C : List Nat) (hsl : salt.length = 32)
    (hil : iv.length = 12) :
    ((salt ++ iv ++ T ++ C).drop 32).take 12 = iv := by
  rw [show salt ++ iv ++ T ++ C = salt ++ (iv ++ (T ++ C)) by simp [List.append_assoc],
    List.drop_left' hsl]
  exact List.take_left' hil

/-- C2: for every plaintext P and password W, decrypting the envelope
produced by VaultManager.encrypt_data_fips with the same password W
returns exactly P: the envelope carries the salt, the key is re-derived
from W and that salt, the tag verifies, and the UTF-8 decoding undoes
the encoding done at encryption. -/
theorem c2_encrypt_decrypt_roundtrip (r : FipsRandom) (P pw : List Nat)
    (hr : r.WF) (hP : ValidStr P) :
    decrypt_data_fips (encrypt_data_fips r P (some pw)) (some pw) = Except.ok P := by
  obtain ⟨_, _, hsl, hsb, hil, hib⟩ := hr
  have henc : encrypt_data_fips r P (some pw) =
      base64Encode (r.salt ++ r.iv ++ ghash (fipsKey (some pw) r.salt) r.iv
        (zipXor (utf8Encode P) (keystream (fipsKey (some pw) r.salt) r.iv
          (utf8Encode P).length)) ++
        zipXor (utf8Encode P) (keystream (fipsKey (some pw) r.salt) r.iv
          (utf8Encode P).length)) := rfl
  rw [henc, decrypt_data_fips_encode (some pw) r.salt r.iv (utf8Encode P) hsl hsb hil hib
    (utf8Encode_bytes P hP), utf8_roundtrip P hP]

/-- Witness for C2 at a concrete plaintext, password and drawn randomness. -/
theorem c2_encrypt_decrypt_roundtrip_witness :
    rand0.WF ∧ ValidStr wPlain ∧
    decrypt_data_fips (encrypt_data_fips rand0 wPlain (some wPw)) (some wPw) =
      Except.ok wPlain :=
  ⟨by decide, by decide,
   c2_encrypt_decrypt_roundtrip rand0 wPlain wPw (by decide) (by decide)⟩

/-- C8: a decodable envelope whose decoded length is below the 60-byte
header fails with the format error (the GCM construction rejects the
short IV or tag); a decodable envelope of full header length whose
stored tag differs from the tag recomputed over the transmitted salt,
IV and ciphertext fails with the integrity error. -/
theorem c8_decrypt_error_taxonomy (env bytes : List Nat) (pw : Option (List Nat))
    (hdec : base64Decode env = some bytes) :
    (bytes.length < 60 → decrypt_data_fips env pw = .error .FormatError) ∧
    (60 ≤ bytes.length →
      (bytes.drop 44).take 16 ≠
        ghash (fipsKey pw (bytes.take 32)) ((bytes.drop 32).take 12) (bytes.drop 60) →
      decrypt_data_fips env pw = .error .IntegrityError) := by
  rw [decrypt_data_fips_unfold env bytes pw hdec]
  constructor
  · intro h; rw [if_pos h]
  · intro h hne
    rw [if_neg (by omega), if_neg hne]

/-- Witness for C8: a two-byte envelope fails with FormatError and a
60-byte all-zero envelope fails with IntegrityError. -/
theorem c8_decrypt_error_taxonomy_witness :
    decrypt_data_fips envShort none = .error .FormatError ∧
    decrypt_data_fips envZeros none = .error .IntegrityError :=
  ⟨(c8_decrypt_error_taxonomy envShort [0, 0] none (by decide)).1 (by decide),
   (c8_decrypt_error_taxonomy envZeros (List.replicate 60 0) none (by decide)).2
     (by decide) (by decide)⟩

/-- C9: two calls of encrypt_data_fips with identical plaintext and
password but distinct drawn salt (or distinct drawn IV) produce
different envelope strings, because the envelope embeds the salt and
IV verbatim and base64 encoding is injective. -/
theorem c9_envelope_freshness (r1 r2 : FipsRandom) (P : List Nat)
    (pw : Option (List Nat)) (h1 : r1.WF) (h2 : r2.WF) (hP : ValidStr P)
    (hne : r1.salt ≠ r2.salt ∨ r1.iv ≠ r2.iv) :
    encrypt_data_fips r1 P pw ≠ encrypt_data_fips r2 P pw := by
  obtain ⟨_, _, hsl1, hsb1, hil1, hib1⟩ := h1
  obtain ⟨_, _, hsl2, hsb2, hil2, hib2⟩ := h2
  intro heq
  have e : ∀ r : FipsRandom, encrypt_data_fips r P pw =
      base64Encode (r.salt ++ r.iv ++
        ghash (generate_fips_compliant_key r pw).1 r.iv
          (zipXor (utf8Encode P) (keystream (generate_fips_compliant_key r pw).1 r.iv
            (utf8Encode P).length)) ++
        zipXor (utf8Encode P) (keystream (generate_fips_compliant_key r pw).1 r.iv
          (utf8Encode P).length)) := by
    intro r
    rw [show encrypt_data_fips r P pw =
        base64Encode ((generate_fips_compliant_key r pw).2 ++ r.iv ++
          ghash (generate_fips_compliant_key r pw).1 r.iv
            (zipXor (utf8Encode P) (keystream (generate_fips_compliant_key r pw).1 r.iv
              (utf8Encode P).length)) ++
          zipXor (utf8Encode P) (keystream (generate_fips_compliant_key r pw).1 r.iv
            (utf8Encode P).length)) from rfl]
    rw [generate_key_salt]
  rw [e r1, e r2] at heq
  have hpb : ∀ (r : FipsRandom), r.salt.length = 32 → Bytes r.salt → Bytes r.iv →
      Bytes (r.salt ++ r.iv ++
        ghash (generate_fips_compliant_key r pw).1 r.iv
          (zipXor (utf8Encode P) (keystream (generate_fips_compliant_key r pw).1 r.iv
            (utf8Encode P).length)) ++
        zipXor (utf8Encode P) (keystream (generate_fips_compliant_key r pw).1 r.iv
          (utf8Encode P).length)) := by
    intro r _ hsb hib b hb
    simp only [List.mem_append] at hb
    rcases hb with ((h | h) | h) | h
    · exact hsb b h
    · exact hib b h
    · exact ghash_bytes _ _ _ b h
    · exact zipXor_bytes _ _ (utf8Encode_bytes P hP) (keystream_bytes _ _ _) b h
  have h' : some (r1.salt ++ r1.iv ++
      ghash (generate_fips_compliant_key r1 pw).1 r1.iv
        (zipXor (utf8Encode P) (keystream (generate_fips_compliant_key r1 pw).1 r1.iv
          (utf8Encode P).length)) ++
      zipXor (utf8Encode P) (keystream (generate_fips_compliant_key r1 pw).1 r1.iv
        (utf8Encode P).length)) =
      some (r2.salt ++ r2.iv ++
      ghash (generate_fips_compliant_key r2 pw).1 r2.iv
        (zipXor (utf8Encode P) (keystream (generate_fips_compliant_key r2 pw).1 r2.iv
          (utf8Encode P).length)) ++
      zipXor (utf8Encode P) (keystream (generate_fips_compliant_key r2 pw).1 r2.iv
        (utf8Encode P).length)) := by
    rw [← base64_roundtrip _ (hpb r1 hsl1 hsb1 hib1),
      ← base64_roundtrip _ (hpb r2 hsl2 hsb2 hib2), heq]
  have hp := Option.some.inj h'
  have hs : r1.salt = r2.salt := by
    have h32 := congrArg (List.take 32) hp
    rwa [payload_take_salt _ _ _ _ hsl1, payload_take_salt _ _ _ _ hsl2] at h32
  have hiv : r1.iv = r2.iv := by
    have h12 := congrArg (fun l => (List.drop 32 l).take 12) hp
    simp only [] at h12
    rwa [payload_take_iv _ _ _ _ hsl1 hil1, payload_take_iv _ _ _ _ hsl2 hil2] at h12
  rcases hne with h | h
  · exact h hs
  · exact h hiv

/-- Witness for C9 at two concrete, differently-salted draws. -/
theorem c9_envelope_freshness_witness :
    rand0.salt ≠ rand1.salt ∧
    encrypt_data_fips rand0 wPlain none ≠ encrypt_data_fips rand1 wPlain none :=
  ⟨by decide,
   c9_envelope_freshness rand0 rand1 wPlain none (by decide) (by decide) (by decide)
     (Or.inl (by decide))⟩

/-- C10: decrypt_data with a recorded scheme that is neither the
configured KMS key name nor FIPS_AES256_GCM raises nothing and returns
its input unchanged. -/
theorem c10_decrypt_passthrough (st : VaultState) (data : List Nat) (kn : Option String)
    (h1 : kn ≠ st.kms_key_name) (h2 : kn ≠ some "FIPS_AES256_GCM") :
    decrypt_data st data kn = Except.ok data := by
  unfold decrypt_data
  rw [if_neg (fun hc => h1 hc.1), if_neg h2]

/-- Witness for C10 with an unknown scheme identifier. -/
theorem c10_decrypt_passthrough_witness :
    decrypt_data stFips (strCodes "opaque bytes") (some "OTHER_SCHEME") =
      Except.ok (strCodes "opaque bytes") :=
  c10_decrypt_passthrough stFips (strCodes "opaque bytes") (some "OTHER_SCHEME")
    (by decide) (by decide)

theorem length_filter_add_not {α : Type} (p : α → Bool) :
    ∀ l : List α, (l.filter p).length + (l.filter (fun x => !(p x))).length = l.length
  | [] => rfl
  | x :: xs => by
    have ih := length_filter_add_not p xs
    by_cases h : p x = true
    · simp only [List.filter_cons, h, if_true, Bool.not_true, List.length_cons]
      simp only [Bool.false_eq_true, if_false]
      omega
    · have h' : p x = false := by revert h; cases p x <;> simp
      simp only [List.filter_cons, h', Bool.not_false, if_true, List.length_cons]
      simp only [Bool.false_eq_true, if_false]
      omega

theorem auto_migrate_fold (minF : Nat) :
    ∀ (blobs : List ScanBlob) (acc : List MigratedEntry × List String),
    (∀ b ∈ blobs, countedBlob minF b = true) →
    ((blobs.foldl (processScanBlob minF) acc).1.length =
      acc.1.length + (blobs.filter blobOk).length ∧
     (blobs.foldl (processScanBlob minF) acc).2.length =
      acc.2.length + (blobs.filter (fun b => !(blobOk b))).length)
  | [], acc, _ => by simp
  | b :: bs, acc, h => by
    have he := h b (by simp)
    have hbs : ∀ x ∈ bs, countedBlob minF x = true := fun x hx => h x (by simp [hx])
    unfold countedBlob at he
    rw [Bool.and_eq_true] at he
    obtain ⟨hjson, hparse⟩ := he
    rw [List.foldl_cons]
    cases hp : b.parsed with
    | error e =>
      have hstep : processScanBlob minF acc b = (acc.1, acc.2 ++ [b.name]) := by
        simp [processScanBlob, hp, hjson]
      rw [hstep]
      obtain ⟨ih1, ih2⟩ := auto_migrate_fold minF bs (acc.1, acc.2 ++ [b.name]) hbs
      dsimp only [] at ih1 ih2
      simp only [List.length_append, List.length_cons, List.length_nil] at ih1 ih2
      constructor
      · rw [ih1]
        have hf : (b :: bs).filter blobOk = bs.filter blobOk := by
          simp [List.filter_cons, blobOk, hp]
        rw [hf]
      · rw [ih2]
        have hf : (b :: bs).filter (fun x => !(blobOk x)) =
            b :: bs.filter (fun x => !(blobOk x)) := by
          simp [List.filter_cons, blobOk, hp]
        rw [hf]
        simp only [List.length_append, List.length_cons]
        omega
    | ok info =>
      rw [hp] at hparse
      have hfind : minF ≤ info.total_findings := of_decide_eq_true hparse
      cases hm : b.migrateResult with
      | error e =>
        have hstep : processScanBlob minF acc b = (acc.1, acc.2 ++ [b.name]) := by
          simp [processScanBlob, hp, hjson, hfind, hm]
        rw [hstep]
        obtain ⟨ih1, ih2⟩ := auto_migrate_fold minF bs (acc.1, acc.2 ++ [b.name]) hbs
        dsimp only [] at ih1 ih2
        simp only [List.length_append, List.length_cons, List.length_nil] at ih1 ih2
        constructor
        · rw [ih1]
          have hf : (b :: bs).filter blobOk = bs.filter blobOk := by
            simp [List.filter_cons, blobOk, hp, migrateOk, exceptOk, hm]
          rw [hf]
        · rw [ih2]
          have hf : (b :: bs).filter (fun x => !(blobOk x)) =
              b :: bs.filter (fun x => !(blobOk x)) := by
            simp [List.filter_cons, blobOk, hp, migrateOk, exceptOk, hm]
          rw [hf]
          simp only [List.length_append, List.length_cons]
          omega
      | ok vp =>
        have hstep : processScanBlob minF acc b =
            (acc.1 ++ [⟨info.file_id, info.file_name, info.total_findings, vp⟩], acc.2) := by
          simp [processScanBlob, hp, hjson, hfind, hm]
        rw [hstep]
        obtain ⟨ih1, ih2⟩ := auto_migrate_fold minF bs
          (acc.1 ++ [⟨info.file_id, info.file_name, info.total_findings, vp⟩], acc.2) hbs
        dsimp only [] at ih1 ih2
        simp only [List.length_append, List.length_cons, List.length_nil] at ih1 ih2
        constructor
        · rw [ih1]
          have hf : (b :: bs).filter blobOk = b :: bs.filter blobOk := by
            simp [List.filter_cons, blobOk, hp, migrateOk, exceptOk, hm]
          rw [hf]
          simp only [List.length_append, List.length_cons]
          omega
        · rw [ih2]
          have hf : (b :: bs).filter (fun x => !(blobOk x)) =
              bs.filter (fun x => !(blobOk x)) := by
            simp [List.filter_cons, blobOk, hp, migrateOk, exceptOk, hm]
          rw [hf]

/-- C7: in a batch all of whose blobs are counted items (.json names
and, when parsed, above the findings threshold), where exactly one
item's processing raises - at the download/parse step or at the
migrate step - the auto-migrate loop still processes every other item
and returns N-1 entries in migrated_files and 1 entry in failed_files
rather than an aborted batch. -/
theorem c7_migration_isolation (minF : Nat) (blobs : List ScanBlob)
    (helig : ∀ b ∈ blobs, countedBlob minF b = true)
    (hone : (blobs.filter (fun b => !(blobOk b))).length = 1) :
    (auto_migrate_sensitive_files minF blobs).1.length = blobs.length - 1 ∧
    (auto_migrate_sensitive_files minF blobs).2.length = 1 := by
  obtain ⟨h1, h2⟩ := auto_migrate_fold minF blobs ([], []) helig
  have hsum := length_filter_add_not blobOk blobs
  unfold auto_migrate_sensitive_files
  rw [h1, h2, hone]
  constructor
  · simp only [List.length_nil]
    omega
  · simp

/-- Witness for C7 on a three-item batch whose middle item fails its
content download. -/
theorem c7_migration_isolation_witness :
    (scanBatchW.filter (fun b => !(blobOk b))).length = 1 ∧
    (auto_migrate_sensitive_files 1 scanBatchW).1.length = scanBatchW.length - 1 ∧
    (auto_migrate_sensitive_files 1 scanBatchW).2.length = 1 := by
  refine ⟨by decide, ?_, ?_⟩
  · exact (c7_migration_isolation 1 scanBatchW (by decide) (by decide)).1
  · exact (c7_migration_isolation 1 scanBatchW (by decide) (by decide)).2

theorem strStartsWith_append (pre s : String) :
    strStartsWith (strAppend pre s) pre = true := by
  unfold strStartsWith strAppend
  simp [List.isPrefixOf_iff_prefix]

theorem strDrop_append (pre s : String) (n : Nat) (h : pre.data.length = n) :
    strDrop (strAppend pre s) n = s := by
  unfold strDrop strAppend
  rw [List.drop_left' h]

theorem findBlob_cons (kv : String × Blob) (rest : List (String × Blob)) (n : String) :
    findBlob (kv :: rest) n = if kv.1 = n then some kv.2 else findBlob rest n := rfl

theorem findBlob_erase (l : List (String × Blob)) (k : String) :
    findBlob (eraseBlob l k) k = none := by
  induction l with
  | nil => rfl
  | cons kv rest ih =>
    unfold eraseBlob at ih ⊢
    rw [List.filter_cons]
    by_cases h : kv.1 = k
    · rw [if_neg (by simp [h])]
      exact ih
    · rw [if_pos (by simp [h]), findBlob_cons, if_neg h]
      exact ih

theorem delete_document_found (st : VaultState) (key : String) (b : Blob)
    (hsc : st.storage_client = true) (hb : findBlob st.bucket key = some b) :
    delete_document st (strAppend "bucket://" key) =
      (st.setBucket (eraseBlob st.bucket key), .ok true) := by
  unfold delete_document
  rw [if_pos (strStartsWith_append _ _), if_pos hsc,
    strDrop_append _ _ 9 (by decide), hb]
  rfl

theorem delete_document_missing (st : VaultState) (key : String)
    (hsc : st.storage_client = true) (hnone : findBlob st.bucket key = none) :
    delete_document st (strAppend "bucket://" key) = (st, .error .NotFound) := by
  unfold delete_document
  rw [if_pos (strStartsWith_append _ _), if_pos hsc,
    strDrop_append _ _ 9 (by decide), hnone]
  rw [if_neg (by simp)]

theorem retrieve_document_missing (st : VaultState) (r : FipsRandom) (key : String)
    (hsc : st.storage_client = true) (hnone : findBlob st.bucket key = none) :
    retrieve_document st r (strAppend "bucket://" key) = .error .NotFound := by
  unfold retrieve_document
  rw [if_pos (strStartsWith_append _ _), if_pos hsc,
    strDrop_append _ _ 9 (by decide), hnone]

/-- C6 (amended): with a storage client configured, bucket addresses
obey the NotFound contract - retrieve and delete on an address whose
blob is absent raise NotFound, and deleting a present blob succeeds
while a second delete of the same address raises NotFound.  The
simulated drive backend, in contrast, never raises NotFound: for every
drive address drive://folder/name, deleting and retrieving - stored or
not - both report success whenever the Drive service is up. -/
theorem c6_bucket_notfound_drive_simulated (st : VaultState) (r : FipsRandom)
    (key folder name : String) :
    (st.storage_client = true → findBlob st.bucket key = none →
      retrieve_document st r (strAppend "bucket://" key) = .error .NotFound ∧
      (delete_document st (strAppend "bucket://" key)).2 = .error .NotFound) ∧
    (st.storage_client = true → ∀ b, findBlob st.bucket key = some b →
      (delete_document st (strAppend "bucket://" key)).2 = .ok true ∧
      (delete_document (delete_document st (strAppend "bucket://" key)).1
        (strAppend "bucket://" key)).2 = .error .NotFound) ∧
    (st.drive_service = true →
      (delete_document st (strAppend "drive://"
        (strAppend folder (strAppend "/" name)))).2 = .ok true ∧
      exceptOk (retrieve_document st r (strAppend "drive://"
        (strAppend folder (strAppend "/" name)))) = true) := by
  have hnb : ¬(strStartsWith (strAppend "drive://"
      (strAppend folder (strAppend "/" name))) "bucket://" = true) :=
    fun h => Bool.false_ne_true h
  have hpd : strStartsWith (strAppend "drive://"
      (strAppend folder (strAppend "/" name))) "drive://" = true :=
    strStartsWith_append "drive://" (strAppend folder (strAppend "/" name))
  have hdr : strDrop (strAppend "drive://"
      (strAppend folder (strAppend "/" name))) 8 =
      strAppend folder (strAppend "/" name) :=
    strDrop_append "drive://" (strAppend folder (strAppend "/" name)) 8 (by decide)
  have hsl : strHasSlash (strAppend folder (strAppend "/" name)) = true := by
    unfold strHasSlash strAppend
    simp [List.contains]
  refine ⟨fun hsc hnone => ⟨retrieve_document_missing st r key hsc hnone, ?_⟩,
    fun hsc b hb => ⟨?_, ?_⟩, fun hds => ⟨?_, ?_⟩⟩
  · rw [delete_document_missing st key hsc hnone]
  · rw [delete_document_found st key b hsc hb]
  · rw [delete_document_found st key b hsc hb]
    have h2 := delete_document_missing (st.setBucket (eraseBlob st.bucket key)) key hsc
      (findBlob_erase st.bucket key)
    rw [h2]
  · unfold delete_document
    rw [if_neg hnb, if_pos hpd, hdr, if_pos hsl, if_pos hds]
  · unfold retrieve_document
    rw [if_neg hnb, if_pos hpd, hdr, if_pos hsl, if_pos hds]
    rfl

/-- Witness for the amended C6: delete-then-delete on the one stored
bucket document succeeds then raises NotFound, and delete plus
retrieve on a never-stored drive address both report success. -/
theorem c6_bucket_notfound_drive_simulated_witness :
    ((delete_document stHybridOneDoc (strAppend "bucket://" "documents/a")).2 =
        .ok true ∧
      (delete_document (delete_document stHybridOneDoc
          (strAppend "bucket://" "documents/a")).1
        (strAppend "bucket://" "documents/a")).2 = .error .NotFound) ∧
    ((delete_document stHybridOneDoc (strAppend "drive://"
        (strAppend "folder1" (strAppend "/" "doc.txt")))).2 = .ok true ∧
      exceptOk (retrieve_document stHybridOneDoc rand0 (strAppend "drive://"
        (strAppend "folder1" (strAppend "/" "doc.txt")))) = true) :=
  ⟨(c6_bucket_notfound_drive_simulated stHybridOneDoc rand0 "documents/a"
      "folder1" "doc.txt").2.1 rfl blobA rfl,
   (c6_bucket_notfound_drive_simulated stHybridOneDoc rand0 "documents/a"
      "folder1" "doc.txt").2.2 rfl⟩

set_option maxRecDepth 8000 in
/-- Counterexample to C6 as stated: on the simulated drive backend a
never-stored address deletes "successfully" - twice - and also
retrieves successfully; NotFound is never raised for drive addresses. -/
theorem c6_counterexample :
    c6FirstDelete.2 = .ok true ∧
    (delete_document c6FirstDelete.1 drivePathX).2 = .ok true ∧
    exceptOk (retrieve_document stHybridBoth rand0 drivePathX) = true := by
  refine ⟨rfl, rfl, ?_⟩
  decide

/-- C5 (amended): with the hybrid storage preference - the mode that
implies multiple backends - list merges nothing and flags nothing: it
falls through both single-backend branches and returns the empty
sequence regardless of backend contents. -/
theorem c5_hybrid_list_empty (st : VaultState) (r : FipsRandom) (nowIso : String)
    (pfx : Option String) (limit : Nat) (h : st.storage_preference = "hybrid") :
    list_vault_documents st r nowIso pfx limit = [] := by
  unfold list_vault_documents
  rw [h]
  rw [if_neg (fun hc => absurd hc.1 (by decide)),
    if_neg (fun hc => absurd hc.1 (by decide))]

/-- Witness for the amended C5 at a concrete hybrid state. -/
theorem c5_hybrid_list_empty_witness :
    list_vault_documents stHybridOneDoc rand1 "t2" (some "documents/") 5 = [] :=
  c5_hybrid_list_empty stHybridOneDoc rand1 "t2" (some "documents/") 5 rfl

set_option maxRecDepth 8000 in
/-- Counterexample to C5 as stated: a hybrid state with one stored
bucket document and both backends configured lists nothing, while the
same bucket under the bucket preference lists its one document. -/
theorem c5_counterexample :
    list_vault_documents stHybridOneDoc rand0 "t" none 100 = [] ∧
    (list_vault_documents stBucketOneDoc rand0 "t" none 100).length = 1 := by
  refine ⟨rfl, ?_⟩
  decide

set_option maxRecDepth 8000 in
/-- C1 at the failing input: storing the scenario document with FIPS
mode on and no managed key records scheme FIPS_AES256_GCM and
encrypted true, but the subsequent retrieve supplies no password, so
decrypt_data_fips falls back to the placeholder all-zero key, GCM
authentication fails and the retrieve returns an error instead of the
original plaintext. -/
theorem c1_store_scheme_retrieve_fails :
    runStore.2 = .ok ⟨storePath, true, "2025-01-01T00:00:00"⟩ ∧
    (findBlob runStore.1.bucket storePath).map (fun b => b.meta.kms_key_name) =
      some "FIPS_AES256_GCM" ∧
    (findBlob runStore.1.bucket storePath).map (fun b => b.meta.encrypted) =
      some "true" ∧
    retrieve_document runStore.1 rand1 (strAppend "bucket://" storePath) =
      .error .IntegrityError := by
  refine ⟨?_, ?_, ?_, ?_⟩ <;> decide

set_option maxRecDepth 8000 in
/-- C3 at the failing input: the vault address a bucket store returns
is the bare blob name with no backend tag, and retrieve on that exact
returned string raises the unsupported-format error instead of
resolving the item. -/
theorem c3_store_address_untagged :
    runStore.2 = .ok ⟨storePath, true, "2025-01-01T00:00:00"⟩ ∧
    strStartsWith storePath "bucket://" = false ∧
    strStartsWith storePath "drive://" = false ∧
    retrieve_document runStore.1 rand1 storePath = .error .UnsupportedFormat := by
  refine ⟨?_, ?_, ?_, ?_⟩ <;> decide

set_option maxRecDepth 8000 in
/-- C4 at the failing input: in hybrid mode with both backends healthy,
store takes only the bucket branch - one result, no Drive write, no
per-backend report - and with the bucket client missing (one backend
failing) it returns an error instead of succeeding on the surviving
Drive backend. -/
theorem c4_hybrid_no_dual_write :
    c4Run.2 = .ok ⟨storePath, true, "2025-01-01T00:00:00"⟩ ∧
    c4Run.1.driveFiles = [] ∧
    c4Run.1.bucket.length = 1 ∧
    c4RunNoBucket.2 = .error .NoStorage ∧
    c4RunNoBucket.1.bucket = [] := by
  refine ⟨?_, ?_, ?_, ?_, ?_⟩ <;> decide

end GDriveProtect
